import Mathlib

/-!
Verification development for the linkowiki repository core:
provider registry and settings validation (tools/ai/providers.py),
agent factory (tools/ai/agent_factory.py), task routing (tools/ai/routing.py),
action validation and apply/reject (tools/linkowiki-admin.py, tools/linkowiki-cli.py),
context memory (tools/memory/context.py) and session manager (tools/session/manager.py).
Python dictionaries are modelled as association lists, exceptions as Except,
the environment and the filesystem as explicit parameters.
-/

set_option maxHeartbeats 1000000
set_option maxRecDepth 16384

namespace Linkowiki

/-- Model of a Python value as it occurs in provider settings dictionaries. -/
inductive PyVal where
  | str (s : String)
  | num (q : ℚ)
  | boolean (b : Bool)
deriving DecidableEq, Repr

/-- A Python dict from setting names to values, modelled as an association list
with first-match lookup (keys are unique in the source dictionaries). -/
abbrev Settings := List (String × PyVal)

/-- Membership test for a key in a settings dict. -/
def hasKey (s : Settings) (k : String) : Bool :=
  (s.lookup k).isSome

/-- Model of Python dict.update: a copy of the defaults where every key of
custom replaces the default entry, and new custom keys are appended. -/
def mergeSettings (d c : Settings) : Settings :=
  d.filter (fun kv => (c.lookup kv.1).isNone) ++ c

/-- Errors raised (as ValueError in the source) by the provider layer. -/
inductive AiErr where
  | unknownProvider (id : String)
  | settingsError (msg : String)
  | credentialError (env_key : String)
  | unsupportedProvider (family : String)
deriving DecidableEq, Repr

/-- Model of ProviderConfig from tools/ai/providers.py. -/
structure ProviderConfig where
  id : String
  provider : String
  model : String
  api_base : Option String := none
  reasoning : Bool
  env_key : String
  default_settings : Settings
  description : Option String := none
deriving DecidableEq, Repr

/-- Model of ProviderRegistry state: the id-to-config mapping and the default id. -/
structure ProviderRegistry where
  providers : List (String × ProviderConfig)
  default_provider_id : String
deriving DecidableEq, Repr

/-- The check that a settings value for reasoning_effort is one of the three
allowed strings, as in the source membership test against a string list. -/
def effortOk (s : Settings) : Bool :=
  match s.lookup "reasoning_effort" with
  | some x => x == .str "low" || x == .str "medium" || x == .str "high"
  | none => false

/-- Model of ProviderConfig.validate_settings_structure, the pydantic field
validator run at load time on default_settings. -/
def validate_settings_structure (reasoning : Bool) (v : Settings) : Except AiErr Settings :=
  let has_reasoning_effort := hasKey v "reasoning_effort"
  let has_temperature := hasKey v "temperature"
  let has_top_p := hasKey v "top_p"
  if reasoning then
    if !has_reasoning_effort then
      .error (.settingsError "Reasoning model must have reasoning_effort in default_settings")
    else if has_temperature || has_top_p then
      .error (.settingsError "Reasoning model cannot have temperature or top_p")
    else if !(effortOk v) then
      .error (.settingsError "reasoning_effort must be low, medium, or high")
    else .ok v
  else
    if has_reasoning_effort then
      .error (.settingsError "Non-reasoning model cannot have reasoning_effort")
    else if !has_temperature && !has_top_p then
      .error (.settingsError "Non-reasoning model must have at least temperature or top_p")
    else .ok v

/-- Model of ProviderRegistry.get_provider. -/
def get_provider (reg : ProviderRegistry) (provider_id : String) : Except AiErr ProviderConfig :=
  match reg.providers.lookup provider_id with
  | some p => .ok p
  | none => .error (.unknownProvider provider_id)

/-- Model of ProviderRegistry.validate_settings, the request-time settings gate. -/
def validate_settings (reg : ProviderRegistry) (provider_id : String) (settings : Settings) :
    Except AiErr Unit :=
  match get_provider reg provider_id with
  | .error e => .error e
  | .ok provider =>
    if provider.reasoning then
      if !(hasKey settings "reasoning_effort") then
        .error (.settingsError "Reasoning model requires reasoning_effort setting")
      else if hasKey settings "temperature" || hasKey settings "top_p" then
        .error (.settingsError "Reasoning model cannot use temperature or top_p")
      else if !(effortOk settings) then
        .error (.settingsError "reasoning_effort must be low, medium, or high")
      else .ok ()
    else
      if hasKey settings "reasoning_effort" then
        .error (.settingsError "Non-reasoning model cannot use reasoning_effort")
      else if !(hasKey settings "temperature") && !(hasKey settings "top_p") then
        .error (.settingsError "Non-reasoning model should have temperature or top_p")
      else .ok ()

/-- Model of ProviderRegistry.get_api_key: the environment is an explicit
parameter; an unset or empty variable raises. -/
def get_api_key (reg : ProviderRegistry) (env : String → Option String)
    (provider_id : String) : Except AiErr String :=
  match get_provider reg provider_id with
  | .error e => .error e
  | .ok provider =>
    match env provider.env_key with
    | none => .error (.credentialError provider.env_key)
    | some k => if k = "" then .error (.credentialError provider.env_key) else .ok k

/-- The observable configuration of a constructed agent. -/
structure Agent where
  model_name : String
  settings : Settings
  system_prompt : String
deriving DecidableEq, Repr

/-- Model of AgentFactory.create_agent: look up the provider, merge default and
custom settings (custom wins), validate the merged settings, resolve the
credential from the environment, check the backend family, build the agent. -/
def create_agent (reg : ProviderRegistry) (provider_id : String) (system_prompt : String)
    (custom_settings : Settings) (env : String → Option String) : Except AiErr Agent :=
  match get_provider reg provider_id with
  | .error e => .error e
  | .ok provider =>
    let settings := mergeSettings provider.default_settings custom_settings
    match validate_settings reg provider_id settings with
    | .error e => .error e
    | .ok _ =>
      match get_api_key reg env provider_id with
      | .error e => .error e
      | .ok _api_key =>
        if provider.provider = "anthropic" then
          .ok { model_name := "anthropic:" ++ provider.model, settings := settings,
                system_prompt := system_prompt }
        else if provider.provider = "openai" then
          .ok { model_name := "openai:" ++ provider.model, settings := settings,
                system_prompt := system_prompt }
        else .error (.unsupportedProvider provider.provider)

/-- ASCII lowercasing of a string, character by character (models str.lower
for the ASCII prompts and keywords used by the router). -/
def strLower (s : String) : String := String.mk (s.data.map Char.toLower)

/-- ASCII uppercasing of a string, character by character (models str.upper). -/
def strUpper (s : String) : String := String.mk (s.data.map Char.toUpper)

/-- Whether the first character list starts with the second one. -/
def charsStartWith : List Char → List Char → Bool
  | _, [] => true
  | [], _ :: _ => false
  | b :: ls, a :: ps => a == b && charsStartWith ls ps

/-- Whether the character list needle occurs contiguously in hay. -/
def charsContain (needle : List Char) : List Char → Bool
  | [] => needle.isEmpty
  | c :: t => charsStartWith (c :: t) needle || charsContain needle t

/-- Substring test, models the Python expression needle in hay. -/
def strContainsSub (hay needle : String) : Bool := charsContain needle.data hay.data

/-- Models str.startswith. -/
def strStartsWithSlashable (s pre : String) : Bool := charsStartWith s.data pre.data

/-- The fixed ROUTING_MAP table of ProviderRouter in tools/ai/routing.py. -/
def ROUTING_MAP : List (String × String) :=
  [ ("tags", "openai-gpt5-nano-text"),
    ("abstract", "openai-gpt5-nano-text"),
    ("metadata", "openai-gpt5-nano-text"),
    ("bulk", "openai-gpt5-mini-text"),
    ("rewrite", "openai-gpt5-mini-text"),
    ("summary", "openai-gpt5-mini-text"),
    ("structure", "openai-gpt5-reasoning"),
    ("outline", "openai-gpt5-reasoning"),
    ("analysis", "openai-gpt5-reasoning"),
    ("default", "openai-gpt5-text") ]

/-- Model of ProviderRouter.route: table lookup with fallback to the default
entry (the inner fallback string is unreachable since the table has a default). -/
def route (task_type : String) : String :=
  match ROUTING_MAP.lookup task_type with
  | some pid => pid
  | none =>
    match ROUTING_MAP.lookup "default" with
    | some pid => pid
    | none => ""

/-- Whether any keyword of the list occurs in the prompt text. -/
def kwAny (kws : List String) (p : String) : Bool :=
  kws.any (fun kw => strContainsSub p kw)

/-- Model of ProviderRouter.detect_task_type: the ordered if-chain of keyword
tests from the source, applied to the lowercased prompt. -/
def detect_task_type (prompt : String) : String :=
  let prompt_lower := strLower prompt
  if kwAny ["tag", "tags", "tagging", "schlagwort"] prompt_lower then "tags"
  else if kwAny ["abstract", "zusammenfassung", "kurz"] prompt_lower then "abstract"
  else if kwAny ["metadata", "metadaten", "eigenschaft"] prompt_lower then "metadata"
  else if kwAny ["bulk", "masse", "viele", "alle"] prompt_lower then "bulk"
  else if kwAny ["rewrite", "umschreiben", "überarbeiten"] prompt_lower then "rewrite"
  else if kwAny ["summarize", "summary", "zusammenfassen"] prompt_lower then "summary"
  else if kwAny ["structure", "struktur", "organisieren"] prompt_lower then "structure"
  else if kwAny ["outline", "gliederung", "übersicht"] prompt_lower then "outline"
  else if kwAny ["analyze", "analysis", "analysiere"] prompt_lower then "analysis"
  else "default"

/-- Model of ProviderRouter.route_auto. -/
def route_auto (prompt : String) : String := route (detect_task_type prompt)

/-- The ordered rule list of the spec for claim C7: nano-tier keyword sets
first, then mini-tier, then reasoning-tier, each paired with its task type. -/
def specKeywordRules : List (List String × String) :=
  [ (["tag", "tags", "tagging", "schlagwort"], "tags"),
    (["abstract", "zusammenfassung", "kurz"], "abstract"),
    (["metadata", "metadaten", "eigenschaft"], "metadata"),
    (["bulk", "masse", "viele", "alle"], "bulk"),
    (["rewrite", "umschreiben", "überarbeiten"], "rewrite"),
    (["summarize", "summary", "zusammenfassen"], "summary"),
    (["structure", "struktur", "organisieren"], "structure"),
    (["outline", "gliederung", "übersicht"], "outline"),
    (["analyze", "analysis", "analysiere"], "analysis") ]

/-- First-match evaluation of an ordered keyword rule list, following the
spec's wording: the first rule whose keyword set matches wins, no match
yields the default task type. -/
def specFirstMatch : List (List String × String) → String → String
  | [], _ => "default"
  | (kws, t) :: rest, pl => if kwAny kws pl then t else specFirstMatch rest pl

/-- The spec-side detector for claim C7: case-insensitive first-match scan
over the ordered rule list. -/
def specDetect (prompt : String) : String :=
  specFirstMatch specKeywordRules (strLower prompt)

/-- Model of the Action pydantic model of tools/ai/assistant.py. -/
structure Action where
  type : String
  path : String
  content : Option String := none
deriving DecidableEq, Repr

/-- Errors raised (as RuntimeError or FileNotFoundError) by the action path
of tools/linkowiki-admin.py. -/
inductive AdminErr where
  | invalidPath (path : String)
  | targetIsDirectory
  | contentTooLarge
  | fileNotFound (path : String)
deriving DecidableEq, Repr

/-- Model of validate_action from tools/linkowiki-admin.py; isDir models
whether WIKI_DIR slash path exists and is a directory. The Python guard
action.content and len(action.content) greater than 50000 skips None and the
empty string, which the length test would pass anyway. -/
def validate_action (isDir : String → Bool) (a : Action) : Except AdminErr Unit :=
  if strContainsSub a.path ".." || strStartsWithSlashable a.path "/" then
    .error (.invalidPath a.path)
  else if isDir a.path then .error .targetIsDirectory
  else
    match a.content with
    | some c => if c.length > 50000 then .error .contentTooLarge else .ok ()
    | none => .ok ()

/-- A filesystem snapshot: regular files with content, and directories. -/
structure FS where
  files : List (String × String)
  dirs : List String
deriving DecidableEq, Repr

/-- Read a file if present. -/
def fsRead (fs : FS) (p : String) : Option String := fs.files.lookup p

/-- Overwrite or create a file. -/
def fsWriteFile (fs : FS) (p : String) (c : String) : FS :=
  { fs with files := (p, c) :: fs.files.filter (fun kv => kv.1 ≠ p) }

/-- Remove a file (no-op when absent). -/
def fsDeleteFile (fs : FS) (p : String) : FS :=
  { fs with files := fs.files.filter (fun kv => kv.1 ≠ p) }

/-- Split a character list at a separator. -/
def splitChars (sep : Char) : List Char → List (List Char)
  | [] => [[]]
  | c :: t =>
    let r := splitChars sep t
    if c == sep then [] :: r
    else
      match r with
      | [] => [[c]]
      | h :: t' => (c :: h) :: t'

/-- All proper ancestor directories of a slash-separated path, as created by
Path.mkdir with parents set. -/
def parentDirs (p : String) : List String :=
  let parts := ((splitChars '/' p.data).map String.mk).dropLast
  (List.range parts.length).map (fun i => String.intercalate "/" (parts.take (i + 1)))

/-- Create the parent directories of a path. -/
def mkdirParents (fs : FS) (p : String) : FS :=
  { fs with dirs := parentDirs p ++ fs.dirs }

/-- Models the Python expression: a.content or the empty string. -/
def pyOrEmpty (c : Option String) : String := c.getD ""

/-- Execution of one admin action (types create and append; anything else is
silently skipped by the if chain); append raises FileNotFoundError when the
target does not exist, and nothing catches it. -/
def admin_exec_action (fs : FS) (a : Action) : Except AdminErr FS :=
  if a.type = "create" then
    .ok (fsWriteFile (mkdirParents fs a.path) a.path (pyOrEmpty a.content))
  else if a.type = "append" then
    match fsRead fs a.path with
    | some old => .ok (fsWriteFile fs a.path (old ++ "\n" ++ pyOrEmpty a.content))
    | none => .error (.fileNotFound a.path)
  else .ok fs

/-- Validate every action of a batch in order, stopping at the first failure,
as the leading loop of apply_actions does. -/
def validate_all_actions (isDir : String → Bool) : List Action → Except AdminErr Unit
  | [] => .ok ()
  | a :: rest =>
    match validate_action isDir a with
    | .error e => .error e
    | .ok _ => validate_all_actions isDir rest

/-- Sequential execution of the confirmed admin batch; an exception from an
append on a missing target propagates and stops the loop. -/
def admin_exec_all : List Action → FS → Except AdminErr FS
  | [], fs => .ok fs
  | a :: rest, fs =>
    match admin_exec_action fs a with
    | .error e => .error e
    | .ok fs' => admin_exec_all rest fs'

/-- Outcome report of apply_actions. -/
inductive ApplyReport where
  | readOnly
  | aborted
  | applied
deriving DecidableEq, Repr

/-- Model of apply_actions from tools/linkowiki-admin.py: validate the whole
batch first; in read-only mode report and return without consulting the
confirmation gate; otherwise ask for confirmation and on a no answer abort;
on yes execute the actions in order and log to the changelog file (the
changelog is a separate file, not part of the session record). -/
def apply_actions (isDir : String → Bool) (actions : List Action) (write : Bool)
    (confirmAnswer : Bool) (fs : FS) : Except AdminErr (FS × ApplyReport) :=
  match validate_all_actions isDir actions with
  | .error e => .error e
  | .ok _ =>
    if !write then .ok (fs, .readOnly)
    else if !confirmAnswer then .ok (fs, .aborted)
    else
      match admin_exec_all actions fs with
      | .error e => .error e
      | .ok fs' => .ok (fs', .applied)

/-- Model of the session record persisted by tools/session/manager.py. -/
structure Session where
  write : Bool := false
  history : List String := []
  files : List (String × String) := []
  changes : List String := []
  pending_actions : List Action := []
  active_provider_id : Option String := none
deriving DecidableEq, Repr

/-- Model of the reject command of the admin session shell: clear the pending
actions and persist; the filesystem is not touched. -/
def reject_pending (s : Session) (fs : FS) : Session × FS :=
  ({ s with pending_actions := [] }, fs)

/-- Path resolution of the CLI executor: absolute paths are taken as is,
relative ones are joined under the wiki root. -/
def resolvePath (p : String) : String :=
  if strStartsWithSlashable p "/" then p else "WIKI_ROOT/" ++ p

/-- One iteration of the loop of _execute_pending_actions in
tools/linkowiki-cli.py. The failing oracle names the resolved paths at which
write_text or unlink raises; the surrounding try block catches any such error,
reports it, and the loop continues, so the function is total. A write action
whose content is None fails inside write_text after mkdir already ran. -/
def cli_exec_action (failing : String → Bool) (fs : FS) (a : Action) : FS :=
  let action_type := strUpper a.type
  let file_path := resolvePath a.path
  if action_type = "WRITE" then
    let fs1 := mkdirParents fs file_path
    match a.content with
    | some c => if failing file_path then fs1 else fsWriteFile fs1 file_path c
    | none => fs1
  else if action_type = "EDIT" then
    match fsRead fs file_path with
    | some _ =>
      match a.content with
      | some c => if failing file_path then fs else fsWriteFile fs file_path c
      | none => fs
    | none =>
      let fs1 := mkdirParents fs file_path
      match a.content with
      | some c => if failing file_path then fs1 else fsWriteFile fs1 file_path c
      | none => fs1
  else if action_type = "DELETE" then
    match fsRead fs file_path with
    | some _ => if failing file_path then fs else fsDeleteFile fs file_path
    | none => fs
  else fs

/-- Sequential left-to-right execution of a batch, as the for loop does. -/
def cli_exec_actions (failing : String → Bool) (actions : List Action) (fs : FS) : FS :=
  actions.foldl (cli_exec_action failing) fs

/-- Model of _execute_pending_actions: on an empty queue report and return
unchanged; otherwise execute every pending action in order (each failure
caught per action), then clear pending_actions and persist the session.
Session.changes is never touched here. -/
def execute_pending_actions (failing : String → Bool) (s : Session) (fs : FS) : Session × FS :=
  match s.pending_actions with
  | [] => (s, fs)
  | _ :: _ => ({ s with pending_actions := [] }, cli_exec_actions failing s.pending_actions fs)

/-- Model of the action-handling tail of _process_ai_standard in
tools/linkowiki-cli.py: stage the batch as pending, then, when auto-execute
is on, either warn and keep the batch pending if any action type uppercases
to DELETE, or execute the whole batch immediately. The returned flag records
whether the batch was executed without the confirmation gate. -/
def process_ai_actions (autoexec : Bool) (failing : String → Bool) (actions : List Action)
    (s : Session) (fs : FS) : Session × FS × Bool :=
  let s1 := { s with pending_actions := actions }
  if autoexec then
    if actions.any (fun a => strUpper a.type == "DELETE") then (s1, fs, false)
    else
      let (s2, fs2) := execute_pending_actions failing s1 fs
      (s2, fs2, true)
  else (s1, fs, false)

/-- Scan state of difflib find_longest_match: the previous row of run lengths
indexed by position in b, and the best block found so far. -/
structure FLMState where
  j2len : Array Nat
  besti : Nat
  bestj : Nat
  bestsize : Nat

/-- One row of the difflib find_longest_match scan, for a fixed index i into a:
for every j in the window with b at j equal to a at i, the run length extends
the diagonal predecessor, and a strictly larger run updates the best block. -/
def flmRow (a b : Array Char) (blo bhi : Nat) (i : Nat) (st : FLMState) : FLMState :=
  let start : Array Nat × Nat × Nat × Nat := (Array.mkArray b.size 0, st.besti, st.bestj, st.bestsize)
  let step := fun (acc : Array Nat × Nat × Nat × Nat) (j : Nat) =>
    let (row, bi, bj, bs) := acc
    if b.getD j ' ' == a.getD i ' ' then
      let k := (if j = 0 then 0 else st.j2len.getD (j - 1) 0) + 1
      let row' := row.setD j k
      if k > bs then (row', i + 1 - k, j + 1 - k, k) else (row', bi, bj, bs)
    else acc
  let (row, bi, bj, bs) := (List.range' blo (bhi - blo)).foldl step start
  ⟨row, bi, bj, bs⟩

/-- Model of difflib SequenceMatcher.find_longest_match on a window, with no
junk (the source passes None and the strings are far below the autojunk
threshold). Returns the start in a, start in b and size of the best block. -/
def findLongestMatch (a b : Array Char) (alo ahi blo bhi : Nat) : Nat × Nat × Nat :=
  let st0 : FLMState := ⟨Array.mkArray b.size 0, alo, blo, 0⟩
  let stF := (List.range' alo (ahi - alo)).foldl (fun st i => flmRow a b blo bhi i st) st0
  (stF.besti, stF.bestj, stF.bestsize)

/-- The queue loop of difflib get_matching_blocks, accumulating the total
matched size (block order is irrelevant for the total). Fuel bounds the loop;
the top-level caller passes more fuel than nodes the recursion can create. -/
def matchingSizes (a b : Array Char) : Nat → List (Nat × Nat × Nat × Nat) → Nat → Nat
  | 0, _, acc => acc
  | _ + 1, [], acc => acc
  | fuel + 1, (alo, ahi, blo, bhi) :: rest, acc =>
    let (i, j, k) := findLongestMatch a b alo ahi blo bhi
    if k = 0 then matchingSizes a b fuel rest acc
    else
      let q1 := if alo < i && blo < j then [(alo, i, blo, j)] else []
      let q2 := if i + k < ahi && j + k < bhi then [(i + k, ahi, j + k, bhi)] else []
      matchingSizes a b fuel (q1 ++ q2 ++ rest) (acc + k)

/-- Total number of matched characters of the two sequences, as summed by
difflib SequenceMatcher over all matching blocks. -/
def smTotalMatches (a b : List Char) : Nat :=
  let aa := a.toArray
  let ba := b.toArray
  matchingSizes aa ba (2 * (a.length + b.length) + 4) [(0, aa.size, 0, ba.size)] 0

/-- Model of difflib SequenceMatcher(None, a, b).ratio(): twice the matched
size over the total length, 1 for two empty strings, as a rational (the
source computes the same quotient in floating point). -/
def seqSimilarity (a b : String) : ℚ :=
  let la := a.data.length
  let lb := b.data.length
  if la + lb = 0 then 1
  else (2 * (smTotalMatches a.data b.data) : ℚ) / ((la : ℚ) + (lb : ℚ))

/-- Split a character list at every character satisfying the predicate. -/
def splitCharsP (p : Char → Bool) : List Char → List (List Char)
  | [] => [[]]
  | c :: t =>
    let r := splitCharsP p t
    if p c then [] :: r
    else
      match r with
      | [] => [[c]]
      | h :: t' => (c :: h) :: t'

/-- Model of Python str.split with no argument: split on whitespace runs and
drop empty pieces. -/
def pyWords (s : String) : List String :=
  ((splitCharsP Char.isWhitespace s.data).map String.mk).filter (fun w => w ≠ "")

/-- The most recent n entries of a list, models Python negative slicing. -/
def lastN (n : Nat) {α : Type} (l : List α) : List α := l.drop (l.length - n)

/-- Size of the intersection of two word sets (the lists are deduplicated
first, modelling Python set intersection). -/
def wordOverlapCount (pw qw : List String) : Nat :=
  (pw.filter (fun w => w ∈ qw)).length

/-- The combined similarity score of suggest_similar: 0.6 times the sequence
similarity plus 0.4 times the word overlap, over the lowercased prompts. -/
def combinedScore (prompt_lower past_lower : String) : ℚ :=
  let similarity := seqSimilarity prompt_lower past_lower
  let pw := (pyWords prompt_lower).dedup
  let qw := (pyWords past_lower).dedup
  let word_overlap : ℚ := (wordOverlapCount pw qw : ℚ) / (max pw.length 1 : ℚ)
  similarity * (6 / 10) + word_overlap * (4 / 10)

/-- One remembered prompt-action pair of the context memory log. -/
structure MemoryEntry where
  timestamp : String
  prompt : String
  action : Action
deriving DecidableEq, Repr

/-- One suggestion returned by suggest_similar. -/
structure Suggestion where
  action : Action
  original_prompt : String
  score : ℚ
  timestamp : String
deriving DecidableEq, Repr

/-- Stable descending insertion: a new element goes after every earlier
element with a greater or equal score, matching Python stable sort with
reverse set. -/
def insertDesc (x : Suggestion) : List Suggestion → List Suggestion
  | [] => [x]
  | y :: ys => if y.score ≥ x.score then y :: insertDesc x ys else x :: y :: ys

/-- Stable descending sort by score. -/
def sortDesc (l : List Suggestion) : List Suggestion :=
  l.foldl (fun acc x => insertDesc x acc) []

/-- Model of ContextMemory.suggest_similar from tools/memory/context.py: scan
the most recent 20 entries, score each against the lowercased prompt, keep
scores strictly above 0.3, sort descending by score and return the top 3. -/
def suggest_similar (mem : List MemoryEntry) (prompt : String) : List Suggestion :=
  if mem.isEmpty then []
  else
    let prompt_lower := strLower prompt
    let scored := (lastN 20 mem).filterMap (fun entry =>
      let past_lower := strLower entry.prompt
      let score := combinedScore prompt_lower past_lower
      if score > 3 / 10 then
        some ⟨entry.action, entry.prompt, score, entry.timestamp⟩
      else none)
    (sortDesc scored).take 3

/-- The Python exception classes that the memory code can meet. -/
inductive PyExc where
  | ioError
  | jsonDecodeError
  | unicodeDecodeError
  | attributeError
  | typeError
  | permissionError
deriving DecidableEq, Repr

/-- A parsed JSON document. -/
inductive JVal where
  | null
  | boolean (b : Bool)
  | num (q : ℚ)
  | str (s : String)
  | arr (elems : List JVal)
  | obj (fields : List (String × JVal))
deriving BEq, Repr

/-- The state of a ContextMemory object right after its constructor ran:
empty log, empty preferences, empty patterns. -/
structure MemLoadState where
  recent_actions : JVal
  user_preferences : JVal
  common_patterns : JVal
deriving BEq, Repr

/-- The empty memory state set up by the constructor. -/
def memEmpty : MemLoadState := ⟨.arr [], .obj [], .obj []⟩

/-- Model of the Python call data.get(key, default): works on a dict, raises
AttributeError on every other value. -/
def pyDictGet (v : JVal) (k : String) (dflt : JVal) : Except PyExc JVal :=
  match v with
  | .obj fields => .ok ((fields.lookup k).getD dflt)
  | _ => .error .attributeError

/-- Model of Python slicing with negative start on the loaded value: works on
a list or a string, raises TypeError on every other value. -/
def pySliceLast50 : JVal → Except PyExc JVal
  | .arr l => .ok (.arr (lastN 50 l))
  | .str s => .ok (.str (String.mk (lastN 50 s.data)))
  | _ => .error .typeError

/-- The try block of ContextMemory load: read and parse the file, then pull
the three fields out of the parsed document. -/
def memory_load_tryBlock (readOutcome : Except PyExc JVal) : Except PyExc MemLoadState := do
  let data ← readOutcome
  let ra ← pyDictGet data "recent_actions" (.arr [])
  let ra50 ← pySliceLast50 ra
  let up ← pyDictGet data "user_preferences" (.obj [])
  let cp ← pyDictGet data "common_patterns" (.obj [])
  pure ⟨ra50, up, cp⟩

/-- Model of ContextMemory load: when the file is absent keep the empty
state; otherwise run the try block and catch exactly JSONDecodeError,
UnicodeDecodeError and IOError, keeping the empty state; any other exception
propagates out of load. -/
def memory_load (fileExists : Bool) (readOutcome : Except PyExc JVal) :
    Except PyExc MemLoadState :=
  if !fileExists then .ok memEmpty
  else
    match memory_load_tryBlock readOutcome with
    | .ok st => .ok st
    | .error e =>
      if e = .jsonDecodeError || e = .unicodeDecodeError || e = .ioError then .ok memEmpty
      else .error e

/-- Model of ContextMemory save: the except clause of the source names
json.JSONEncodeError, an attribute the json module does not have; Python
evaluates the handler tuple only when the try block raises, so every failure
of the write turns into an AttributeError instead of being swallowed. -/
def memory_save (writeOutcome : Except PyExc Unit) : Except PyExc Unit :=
  match writeOutcome with
  | .ok _ => .ok ()
  | .error _ => .error .attributeError

/-- Errors raised by tools/session/manager.py. -/
inductive SessionErr where
  | noActiveSession
  | fileNotFound (path : String)
  | unknownProvider (id : String)
deriving DecidableEq, Repr

/-- Model of add_history: with no persisted session return silently without
writing; otherwise append to history and persist. -/
def add_history (store : Option Session) (entry : String) : Except SessionErr (Option Session) :=
  match store with
  | none => .ok none
  | some s => .ok (some { s with history := s.history ++ [entry] })

/-- Model of record_change: with no persisted session return silently without
writing; otherwise append to changes and persist. -/
def record_change (store : Option Session) (entry : String) : Except SessionErr (Option Session) :=
  match store with
  | none => .ok none
  | some s => .ok (some { s with changes := s.changes ++ [entry] })

/-- Model of attach_file: with no persisted session raise; with a missing
file raise; otherwise record the file content and persist. -/
def attach_file (store : Option Session) (path : String)
    (fileContent : String → Option String) : Except SessionErr (Option Session) :=
  match store with
  | none => .error .noActiveSession
  | some s =>
    match fileContent path with
    | none => .error (.fileNotFound path)
    | some content =>
      .ok (some { s with files := (path, content) :: s.files.filter (fun kv => kv.1 ≠ path) })

/-- Model of set_active_provider: with no persisted session raise; with an
unknown provider id raise before persisting; otherwise set and persist. -/
def set_active_provider (store : Option Session) (reg : ProviderRegistry)
    (provider_id : String) : Except SessionErr (Option Session) :=
  match store with
  | none => .error .noActiveSession
  | some s =>
    match get_provider reg provider_id with
    | .error _ => .error (.unknownProvider provider_id)
    | .ok _ => .ok (some { s with active_provider_id := some provider_id })

/-- A reasoning provider fixture mirroring the openai-gpt5-reasoning entry of
etc/providers.json. -/
def demoReasoningProvider : ProviderConfig :=
  { id := "r1", provider := "openai", model := "gpt-5", reasoning := true,
    env_key := "OPENAI_API_KEY", default_settings := [("reasoning_effort", .str "high")] }

/-- A non-reasoning provider fixture mirroring the openai-gpt5-text entry. -/
def demoTextProvider : ProviderConfig :=
  { id := "t1", provider := "openai", model := "gpt-5-text", reasoning := false,
    env_key := "OPENAI_API_KEY", default_settings := [("temperature", .num (7/10))] }

/-- A registry fixture holding the two providers. -/
def demoRegistry : ProviderRegistry :=
  { providers := [("r1", demoReasoningProvider), ("t1", demoTextProvider)],
    default_provider_id := "t1" }

/-- A session fixture with one staged write action and an empty audit log. -/
def c5Session : Session :=
  { pending_actions := [{ type := "write", path := "a.md", content := some "hello" }] }

/-- A memory log fixture holding one remembered docker prompt. -/
def demoMemoryLog : List MemoryEntry :=
  [{ timestamp := "t1", prompt := "erstelle docker wiki",
     action := { type := "write", path := "docker.md", content := some "inhalt" } }]

/-- The suggestion the docker entry yields for the postgres query. -/
def demoSuggestion : Suggestion :=
  { action := { type := "write", path := "docker.md", content := some "inhalt" },
    original_prompt := "erstelle docker wiki",
    score := combinedScore (strLower "erstelle postgres wiki") (strLower "erstelle docker wiki"),
    timestamp := "t1" }

theorem lookup_cons_eqn {α β : Type} [BEq α] (k a : α) (b : β) (l : List (α × β)) :
    List.lookup k ((a, b) :: l) = if k == a then some b else List.lookup k l := by
  cases h : k == a <;> simp [List.lookup, h]

theorem lookup_mem_keys {α β : Type} [BEq α] [LawfulBEq α] {l : List (α × β)} {k : α} {v : β}
    (h : l.lookup k = some v) : k ∈ l.map Prod.fst := by
  induction l with
  | nil => simp [List.lookup] at h
  | cons kv rest ih =>
    obtain ⟨a, b⟩ := kv
    rw [lookup_cons_eqn] at h
    by_cases hk : (k == a) = true
    · exact List.mem_cons.mpr (Or.inl (eq_of_beq hk))
    · rw [if_neg hk] at h
      exact List.mem_cons.mpr (Or.inr (ih h))

theorem lookup_mergeSettings (d c : Settings) (k : String) :
    (mergeSettings d c).lookup k = ((c.lookup k).orElse (fun _ => d.lookup k)) := by
  induction d with
  | nil =>
    simp only [mergeSettings, List.filter_nil, List.nil_append]
    cases hc : c.lookup k <;> simp [Option.orElse, hc]
  | cons kv d ih =>
    obtain ⟨a, b⟩ := kv
    simp only [mergeSettings, List.filter_cons] at ih ⊢
    by_cases hc : (List.lookup a c).isNone = true
    · rw [if_pos (by exact hc)]
      rw [List.cons_append, lookup_cons_eqn]
      by_cases hk : (k == a) = true
      · have hka : k = a := eq_of_beq hk
        subst hka
        rw [if_pos hk, Option.isNone_iff_eq_none.mp hc]
        simp [Option.orElse, lookup_cons_eqn, hk]
      · rw [if_neg hk, ih]
        rw [lookup_cons_eqn, if_neg hk]
    · rw [if_neg (by exact hc)]
      rw [ih, lookup_cons_eqn]
      by_cases hk : (k == a) = true
      · have hka : k = a := eq_of_beq hk
        subst hka
        rw [if_pos hk]
        cases hy : List.lookup k c with
        | none => rw [hy] at hc; simp at hc
        | some v => rfl
      · rw [if_neg hk]

/-- C1: for every registered provider id and every settings mapping,
ProviderRegistry.validate_settings raises exactly when the reasoning rule is
violated: for a reasoning provider iff the settings lack reasoning_effort, or
contain temperature or top_p, or the reasoning_effort value is not one of
low, medium or high; for a non-reasoning provider iff the settings contain
reasoning_effort or contain neither temperature nor top_p; and the load-time
field validator of default_settings enforces exactly the same rule. -/
theorem c1_validate_settings_exactly_on_rule_violation
    (reg : ProviderRegistry) (provider_id : String) (settings : Settings)
    (p : ProviderConfig) (h : reg.providers.lookup provider_id = some p) :
    ((∃ e, validate_settings reg provider_id settings = .error e) ↔
      (if p.reasoning then
        hasKey settings "reasoning_effort" = false ∨
          hasKey settings "temperature" = true ∨ hasKey settings "top_p" = true ∨
          effortOk settings = false
      else
        hasKey settings "reasoning_effort" = true ∨
          (hasKey settings "temperature" = false ∧ hasKey settings "top_p" = false)))
    ∧ ((∃ e, validate_settings_structure p.reasoning settings = .error e) ↔
      (if p.reasoning then
        hasKey settings "reasoning_effort" = false ∨
          hasKey settings "temperature" = true ∨ hasKey settings "top_p" = true ∨
          effortOk settings = false
      else
        hasKey settings "reasoning_effort" = true ∨
          (hasKey settings "temperature" = false ∧ hasKey settings "top_p" = false))) := by
  have hp : get_provider reg provider_id = Except.ok p := by
    simp [get_provider, h]
  constructor
  · rw [validate_settings, hp]
    cases hr : p.reasoning <;>
      by_cases h1 : hasKey settings "reasoning_effort" = true <;>
      by_cases h2 : hasKey settings "temperature" = true <;>
      by_cases h3 : hasKey settings "top_p" = true <;>
      by_cases h4 : effortOk settings = true <;>
      simp_all
  · rw [validate_settings_structure]
    cases hr : p.reasoning <;>
      by_cases h1 : hasKey settings "reasoning_effort" = true <;>
      by_cases h2 : hasKey settings "temperature" = true <;>
      by_cases h3 : hasKey settings "top_p" = true <;>
      by_cases h4 : effortOk settings = true <;>
      simp_all

/-- Witness for C1 at a concrete reasoning provider: settings carrying a
temperature violate the rule and validate_settings raises. -/
theorem c1_validate_settings_witness :
    ∃ e, validate_settings demoRegistry "r1" [("temperature", PyVal.num (1/2))] =
      Except.error e :=
  ((c1_validate_settings_exactly_on_rule_violation demoRegistry "r1"
      [("temperature", PyVal.num (1/2))] demoReasoningProvider rfl).1).mpr (by decide)

/-- C2: create_agent merges the provider default settings with the custom
settings with custom keys replacing default keys, validates the merged
mapping, and a validation failure is returned as is for every environment,
so it happens before any credential lookup; in particular, for a reasoning
provider and custom settings carrying only a temperature, create_agent fails
with a settings error whose outcome is the same for every environment, hence
without reading the provider env key. -/
theorem c2_create_agent_settings_error_before_credentials
    (reg : ProviderRegistry) (provider_id system_prompt : String) (custom : Settings)
    (p : ProviderConfig) (q : ℚ)
    (h : reg.providers.lookup provider_id = some p) :
    (∀ k, (mergeSettings p.default_settings custom).lookup k =
      ((custom.lookup k).orElse (fun _ => p.default_settings.lookup k)))
    ∧ (∀ env a, create_agent reg provider_id system_prompt custom env = .ok a →
        a.settings = mergeSettings p.default_settings custom)
    ∧ (∀ e, validate_settings reg provider_id (mergeSettings p.default_settings custom) =
          .error e →
        ∀ env, create_agent reg provider_id system_prompt custom env = .error e)
    ∧ (p.reasoning = true →
        ∃ msg, ∀ env, create_agent reg provider_id system_prompt
          [("temperature", PyVal.num q)] env = .error (.settingsError msg)) := by
  have hp : get_provider reg provider_id = Except.ok p := by
    simp [get_provider, h]
  refine ⟨fun k => lookup_mergeSettings _ _ k, ?_, ?_, ?_⟩
  · intro env a hok
    rw [create_agent, hp] at hok
    simp only [] at hok
    cases hv : validate_settings reg provider_id (mergeSettings p.default_settings custom) with
    | error e => rw [hv] at hok; cases hok
    | ok u =>
      rw [hv] at hok
      cases hk : get_api_key reg env provider_id with
      | error e => rw [hk] at hok; cases hok
      | ok key =>
        rw [hk] at hok
        by_cases ha : p.provider = "anthropic"
        · rw [if_pos ha] at hok
          cases hok
          rfl
        · rw [if_neg ha] at hok
          by_cases ho : p.provider = "openai"
          · rw [if_pos ho] at hok
            cases hok
            rfl
          · rw [if_neg ho] at hok
            cases hok
  · intro e hv env
    rw [create_agent, hp]
    simp only []
    rw [hv]
  · intro hr
    have hmherge := lookup_mergeSettings p.default_settings [("temperature", PyVal.num q)]
    by_cases he :
        hasKey (mergeSettings p.default_settings [("temperature", PyVal.num q)])
          "reasoning_effort" = true
    · refine ⟨"Reasoning model cannot use temperature or top_p", fun env => ?_⟩
      rw [create_agent, hp]
      simp only []
      have htemp : hasKey (mergeSettings p.default_settings [("temperature", PyVal.num q)])
          "temperature" = true := by
        unfold hasKey
        rw [lookup_mergeSettings]
        simp [lookup_cons_eqn, List.lookup]
      rw [show validate_settings reg provider_id
            (mergeSettings p.default_settings [("temperature", PyVal.num q)]) =
          .error (.settingsError "Reasoning model cannot use temperature or top_p") by
        rw [validate_settings, hp]
        simp [hr, he, htemp]]
    · refine ⟨"Reasoning model requires reasoning_effort setting", fun env => ?_⟩
      rw [create_agent, hp]
      simp only []
      rw [show validate_settings reg provider_id
            (mergeSettings p.default_settings [("temperature", PyVal.num q)]) =
          .error (.settingsError "Reasoning model requires reasoning_effort setting") by
        rw [validate_settings, hp]
        simp [hr, he]]

/-- Witness for C2 at the concrete registry: creating an agent for the
reasoning provider with a temperature override fails with the settings error
naming the temperature rule, in an empty and a populated environment alike. -/
theorem c2_create_agent_witness :
    ∃ msg, ∀ env, create_agent demoRegistry "r1" "sys"
      [("temperature", PyVal.num (1/2))] env = .error (.settingsError msg) :=
  (c2_create_agent_settings_error_before_credentials demoRegistry "r1" "sys"
    [("temperature", PyVal.num (1/2))] demoReasoningProvider (1/2) rfl).2.2.2 rfl

/-- C3: validate_action rejects an action exactly when its path contains two
dots or starts with a slash, or the resolved target is an existing directory,
or its content exceeds 50000 characters; the two traversal paths are
rejected, content of 50001 characters is rejected, and content of exactly
50000 characters is accepted. -/
theorem c3_validate_action_exactly_on_violation (isDir : String → Bool) (a : Action) :
    ((∃ e, validate_action isDir a = .error e) ↔
      (strContainsSub a.path ".." = true ∨ strStartsWithSlashable a.path "/" = true ∨
        isDir a.path = true ∨ (∃ c, a.content = some c ∧ c.length > 50000)))
    ∧ (∃ e, validate_action isDir
        { type := "write", path := "../etc/passwd", content := none } = .error e)
    ∧ (∃ e, validate_action isDir
        { type := "write", path := "/etc/passwd", content := none } = .error e)
    ∧ (∀ c : String, c.length = 50001 →
        validate_action (fun _ => false)
          { type := "write", path := "note.md", content := some c } =
          .error .contentTooLarge)
    ∧ (∀ c : String, c.length = 50000 →
        validate_action (fun _ => false)
          { type := "write", path := "note.md", content := some c } = .ok ()) := by
  refine ⟨?_, ⟨_, rfl⟩, ⟨_, rfl⟩, ?_, ?_⟩
  · rw [validate_action]
    by_cases h1 : (strContainsSub a.path ".." || strStartsWithSlashable a.path "/") = true
    · rw [if_pos h1]
      simp only [Bool.or_eq_true] at h1
      rcases h1 with h1 | h1 <;> simp [h1]
    · rw [if_neg h1]
      simp only [Bool.or_eq_true, not_or, Bool.not_eq_true] at h1
      obtain ⟨h1a, h1b⟩ := h1
      by_cases h3 : isDir a.path = true
      · rw [if_pos h3]
        simp [h1a, h1b, h3]
      · rw [if_neg h3]
        cases hc : a.content with
        | none => simp [h1a, h1b, h3, hc]
        | some c =>
          by_cases h4 : c.length > 50000
          · simp [h1a, h1b, h3, hc, h4]
          · simp [h1a, h1b, h3, hc, h4]
  · intro c hc
    rw [validate_action]
    simp [strContainsSub, strStartsWithSlashable, charsContain, charsStartWith, hc]
  · intro c hc
    rw [validate_action]
    simp [strContainsSub, strStartsWithSlashable, charsContain, charsStartWith, hc]

/-- Witness for C3 at concrete contents: a 50001-character content is
rejected as too large and a 50000-character content passes validation. -/
theorem c3_validate_action_witness :
    validate_action (fun _ => false)
      { type := "write", path := "note.md",
        content := some (String.mk (List.replicate 50001 'a')) } =
      .error .contentTooLarge
    ∧ validate_action (fun _ => false)
      { type := "write", path := "note.md",
        content := some (String.mk (List.replicate 50000 'a')) } = .ok () :=
  ⟨(c3_validate_action_exactly_on_violation (fun _ => false)
      { type := "write", path := "note.md",
        content := some (String.mk (List.replicate 50001 'a')) }).2.2.2.1
      (String.mk (List.replicate 50001 'a'))
      (show (List.replicate 50001 'a').length = 50001 from List.length_replicate _ _),
    (c3_validate_action_exactly_on_violation (fun _ => false)
      { type := "write", path := "note.md",
        content := some (String.mk (List.replicate 50000 'a')) }).2.2.2.2
      (String.mk (List.replicate 50000 'a'))
      (show (List.replicate 50000 'a').length = 50000 from List.length_replicate _ _)⟩

/-- C4: with auto-execute enabled, a staged batch containing any delete
action is kept pending behind the confirmation gate and the filesystem is
untouched; a batch with no delete action is executed automatically without
confirmation; the override applies to the whole batch, so a write action
next to a delete action does not bypass confirmation either. -/
theorem c4_autoexec_delete_requires_confirmation
    (failing : String → Bool) (autoexec : Bool) (actions : List Action)
    (s : Session) (fs : FS) :
    (actions.any (fun a => strUpper a.type == "DELETE") = true →
      process_ai_actions autoexec failing actions s fs =
        ({ s with pending_actions := actions }, fs, false))
    ∧ (autoexec = true → actions.any (fun a => strUpper a.type == "DELETE") = false →
        process_ai_actions autoexec failing actions s fs =
          ({ s with pending_actions := [] }, cli_exec_actions failing actions fs, true))
    ∧ process_ai_actions true failing
        [{ type := "write", path := "a.md", content := some "x" },
         { type := "delete", path := "b.md", content := none }] s fs =
        ({ s with pending_actions :=
            [{ type := "write", path := "a.md", content := some "x" },
             { type := "delete", path := "b.md", content := none }] }, fs, false) := by
  refine ⟨?_, ?_, ?_⟩
  · intro hdel
    cases autoexec with
    | false => simp [process_ai_actions]
    | true => simp [process_ai_actions, hdel]
  · intro ha hdel
    subst ha
    have hexec : execute_pending_actions failing { s with pending_actions := actions } fs =
        ({ s with pending_actions := [] }, cli_exec_actions failing actions fs) := by
      cases actions with
      | nil => simp [execute_pending_actions, cli_exec_actions]
      | cons a rest => simp [execute_pending_actions]
    simp [process_ai_actions, hdel, hexec]
  · have hdel :
        ([{ type := "write", path := "a.md", content := some "x" },
          { type := "delete", path := "b.md", content := none }] : List Action).any
          (fun a => strUpper a.type == "DELETE") = true := by decide
    simp [process_ai_actions, hdel]

/-- Witness for C4: with auto-execute on, a single delete action stays
pending and the filesystem is untouched. -/
theorem c4_autoexec_witness :
    process_ai_actions true (fun _ => false)
      [{ type := "delete", path := "b.md", content := none }] {} { files := [], dirs := [] } =
      ({ pending_actions := [{ type := "delete", path := "b.md", content := none }] },
        { files := [], dirs := [] }, false) :=
  (c4_autoexec_delete_requires_confirmation (fun _ => false) true
    [{ type := "delete", path := "b.md", content := none }] {} { files := [], dirs := [] }).1
    (by decide)

/-- C5 (amended): executing the pending actions processes the list strictly
in order one action at a time; a write creates the parent directories and
writes the content overwriting; an edit overwrites an existing target and
otherwise falls back to creating it; a delete removes an existing file and
is a silent no-op otherwise; a per-action failure is caught, leaves the
files untouched, and does not abort the remaining actions; afterwards
pending_actions is cleared while Session.changes is left unchanged (the
executor appends no audit entry). -/
theorem c5_execute_pending_actions_semantics (failing : String → Bool) (s : Session) (fs : FS) :
    ((execute_pending_actions failing s fs).1.pending_actions = [])
    ∧ ((execute_pending_actions failing s fs).1.changes = s.changes)
    ∧ ((execute_pending_actions failing s fs).2 = cli_exec_actions failing s.pending_actions fs)
    ∧ (∀ g acts1 acts2 fs', cli_exec_actions g (acts1 ++ acts2) fs' =
        cli_exec_actions g acts2 (cli_exec_actions g acts1 fs'))
    ∧ (∀ g a rest fs', cli_exec_actions g (a :: rest) fs' =
        cli_exec_actions g rest (cli_exec_action g fs' a))
    ∧ (∀ g fs' p c, g (resolvePath p) = false →
        cli_exec_action g fs' { type := "write", path := p, content := some c } =
          fsWriteFile (mkdirParents fs' (resolvePath p)) (resolvePath p) c)
    ∧ (∀ g fs' p c, g (resolvePath p) = false → fsRead fs' (resolvePath p) = none →
        cli_exec_action g fs' { type := "edit", path := p, content := some c } =
          fsWriteFile (mkdirParents fs' (resolvePath p)) (resolvePath p) c)
    ∧ (∀ g fs' p c old, g (resolvePath p) = false → fsRead fs' (resolvePath p) = some old →
        cli_exec_action g fs' { type := "edit", path := p, content := some c } =
          fsWriteFile fs' (resolvePath p) c)
    ∧ (∀ g fs' p old, g (resolvePath p) = false → fsRead fs' (resolvePath p) = some old →
        cli_exec_action g fs' { type := "delete", path := p, content := none } =
          fsDeleteFile fs' (resolvePath p))
    ∧ (∀ g fs' p, fsRead fs' (resolvePath p) = none →
        cli_exec_action g fs' { type := "delete", path := p, content := none } = fs')
    ∧ (∀ g fs' a, g (resolvePath a.path) = true →
        (cli_exec_action g fs' a).files = fs'.files) := by
  have hwrite : strUpper "write" = "WRITE" := by decide
  have hedit : strUpper "edit" = "EDIT" := by decide
  have hdelete : strUpper "delete" = "DELETE" := by decide
  refine ⟨?_, ?_, ?_, ?_, ?_, ?_, ?_, ?_, ?_, ?_, ?_⟩
  · cases hp : s.pending_actions <;> simp [execute_pending_actions, hp]
  · cases hp : s.pending_actions <;> simp [execute_pending_actions, hp]
  · cases hp : s.pending_actions <;> simp [execute_pending_actions, hp, cli_exec_actions]
  · intro g acts1 acts2 fs'
    simp [cli_exec_actions, List.foldl_append]
  · intro g a rest fs'
    rfl
  · intro g fs' p c hg
    simp [cli_exec_action, hwrite, hg]
  · intro g fs' p c hg hr
    simp [cli_exec_action, hedit, hg, hr, show ("EDIT" : String) ≠ "WRITE" by decide]
  · intro g fs' p c old hg hr
    simp [cli_exec_action, hedit, hg, hr, show ("EDIT" : String) ≠ "WRITE" by decide]
  · intro g fs' p old hg hr
    simp [cli_exec_action, hdelete, hg, hr, show ("DELETE" : String) ≠ "WRITE" by decide,
      show ("DELETE" : String) ≠ "EDIT" by decide]
  · intro g fs' p hr
    simp [cli_exec_action, hdelete, hr, show ("DELETE" : String) ≠ "WRITE" by decide,
      show ("DELETE" : String) ≠ "EDIT" by decide]
  · intro g fs' a hg
    rw [cli_exec_action]
    split_ifs with h1 h2 h3
    · cases a.content <;> simp [hg, mkdirParents]
    · cases hr : fsRead fs' (resolvePath a.path) <;> cases a.content <;>
        simp [hg, hr, mkdirParents]
    · cases hr : fsRead fs' (resolvePath a.path) <;> simp [hg, hr]
    · rfl

/-- Witness for C5: a write action on a fresh filesystem creates the parent
directories and writes the file. -/
theorem c5_execute_pending_witness :
    cli_exec_action (fun _ => false) { files := [], dirs := [] }
      { type := "write", path := "a.md", content := some "x" } =
      fsWriteFile (mkdirParents { files := [], dirs := [] } (resolvePath "a.md"))
        (resolvePath "a.md") "x" :=
  (c5_execute_pending_actions_semantics (fun _ => false) {}
    { files := [], dirs := [] }).2.2.2.2.2.1 (fun _ => false)
    { files := [], dirs := [] } "a.md" "x" rfl

/-- Counterexample for C5 as frozen: applying the single staged write action
appends no audit entry to Session.changes, so the audit log does not grow by
one entry per applied action. -/
theorem c5_counterexample_no_audit_entry :
    ¬ ((execute_pending_actions (fun _ => false) c5Session
        { files := [], dirs := [] }).1.changes.length =
      c5Session.changes.length + c5Session.pending_actions.length) := by
  decide

/-- C6: reject clears the pending actions, touches no file and appends no
audit entry; apply with write disabled consults no confirmation gate (its
outcome is the same for every confirmation answer) and either raises at
validation or reports read-only with the filesystem handed back unchanged. -/
theorem c6_reject_and_readonly_apply_no_mutation
    (isDir : String → Bool) (actions : List Action) (confirm confirm' : Bool)
    (fs : FS) (s : Session) :
    (apply_actions isDir actions false confirm fs = apply_actions isDir actions false confirm' fs)
    ∧ ((∃ e, apply_actions isDir actions false confirm fs = .error e) ∨
        apply_actions isDir actions false confirm fs = .ok (fs, .readOnly))
    ∧ reject_pending s fs = ({ s with pending_actions := [] }, fs)
    ∧ (reject_pending s fs).2 = fs
    ∧ (reject_pending s fs).1.changes = s.changes := by
  refine ⟨?_, ?_, rfl, rfl, rfl⟩
  · rw [apply_actions, apply_actions]
    cases hv : validate_all_actions isDir actions <;> rfl
  · cases hv : validate_all_actions isDir actions with
    | error e =>
      left
      exact ⟨e, by rw [apply_actions, hv]⟩
    | ok u =>
      right
      rw [apply_actions, hv]
      rfl

/-- C7: detect_task_type is the first-match evaluation of the fixed ordered
keyword rule list with nano-tier rules first, then mini-tier, then
reasoning-tier, a no-match prompt yielding default; the three sample prompts
detect as tags, analysis and default; route maps every unknown task type to
the default provider; and the composition route_auto always returns one of
the four provider ids, never raising. -/
theorem c7_router_first_match_and_total :
    (∀ prompt, detect_task_type prompt = specDetect prompt)
    ∧ detect_task_type "Generate tags for this article" = "tags"
    ∧ detect_task_type "Analyze this complex problem deeply" = "analysis"
    ∧ detect_task_type "Create a new wiki entry" = "default"
    ∧ (∀ t, t ∉ ROUTING_MAP.map Prod.fst → route t = "openai-gpt5-text")
    ∧ (∀ prompt, route_auto prompt ∈
        ["openai-gpt5-nano-text", "openai-gpt5-mini-text", "openai-gpt5-reasoning",
          "openai-gpt5-text"]) := by
  refine ⟨fun prompt => rfl, by decide, by decide, by decide, ?_, ?_⟩
  · intro t ht
    rw [route]
    cases hl : ROUTING_MAP.lookup t with
    | none => rfl
    | some v => exact absurd (lookup_mem_keys hl) ht
  · intro prompt
    rw [route_auto, detect_task_type]
    split_ifs <;> decide

/-- Witness for C7: an unknown task type routes to the default provider. -/
theorem c7_router_witness : route "unknown-task" = "openai-gpt5-text" :=
  (c7_router_first_match_and_total).2.2.2.2.1 "unknown-task" (by decide)

theorem mem_insertDesc (x y : Suggestion) (l : List Suggestion) :
    y ∈ insertDesc x l ↔ y = x ∨ y ∈ l := by
  induction l with
  | nil => simp [insertDesc]
  | cons z zs ih =>
    rw [insertDesc]
    by_cases h : z.score ≥ x.score
    · rw [if_pos h]
      simp only [List.mem_cons, ih]
      tauto
    · rw [if_neg h]
      simp [List.mem_cons]

theorem pairwise_insertDesc (x : Suggestion) (l : List Suggestion)
    (h : l.Pairwise (fun a b => b.score ≤ a.score)) :
    (insertDesc x l).Pairwise (fun a b => b.score ≤ a.score) := by
  induction l with
  | nil => simp [insertDesc]
  | cons z zs ih =>
    rw [List.pairwise_cons] at h
    rw [insertDesc]
    by_cases hz : z.score ≥ x.score
    · rw [if_pos hz]
      rw [List.pairwise_cons]
      refine ⟨?_, ih h.2⟩
      intro y hy
      rcases (mem_insertDesc x y zs).mp hy with hyx | hyz
      · subst hyx; exact hz
      · exact h.1 y hyz
    · rw [if_neg hz]
      rw [List.pairwise_cons]
      have hxz : z.score ≤ x.score := le_of_lt (lt_of_not_ge hz)
      refine ⟨?_, List.pairwise_cons.mpr h⟩
      intro y hy
      rcases List.mem_cons.mp hy with hyz | hyzs
      · subst hyz; exact hxz
      · exact le_trans (h.1 y hyzs) hxz

theorem mem_sortDescAux (l acc : List Suggestion) (y : Suggestion) :
    y ∈ List.foldl (fun acc x => insertDesc x acc) acc l ↔ y ∈ acc ∨ y ∈ l := by
  induction l generalizing acc with
  | nil => simp
  | cons z zs ih =>
    rw [List.foldl_cons, ih, mem_insertDesc]
    simp only [List.mem_cons]
    tauto

theorem mem_sortDesc (l : List Suggestion) (y : Suggestion) : y ∈ sortDesc l ↔ y ∈ l := by
  rw [sortDesc, mem_sortDescAux]
  simp

theorem pairwise_sortDescAux (l acc : List Suggestion)
    (h : acc.Pairwise (fun a b => b.score ≤ a.score)) :
    (List.foldl (fun acc x => insertDesc x acc) acc l).Pairwise
      (fun a b => b.score ≤ a.score) := by
  induction l generalizing acc with
  | nil => exact h
  | cons z zs ih => exact ih _ (pairwise_insertDesc z acc h)

theorem pairwise_sortDesc (l : List Suggestion) :
    (sortDesc l).Pairwise (fun a b => b.score ≤ a.score) :=
  pairwise_sortDescAux l [] List.Pairwise.nil

theorem lastN_lastN (n : Nat) {α : Type} (l : List α) : lastN n (lastN n l) = lastN n l := by
  simp only [lastN, List.length_drop]
  rw [show l.length - (l.length - n) - n = 0 by omega, List.drop_zero]

theorem c8_demo_score_gt :
    combinedScore (strLower "erstelle postgres wiki") (strLower "erstelle docker wiki") >
      3 / 10 := by
  have hm : smTotalMatches (strLower "erstelle postgres wiki").data
      (strLower "erstelle docker wiki").data = 16 := by decide
  have hla : (strLower "erstelle postgres wiki").data.length = 22 := by decide
  have hlb : (strLower "erstelle docker wiki").data.length = 20 := by decide
  have hsim : seqSimilarity (strLower "erstelle postgres wiki")
      (strLower "erstelle docker wiki") = 16 / 21 := by
    simp only [seqSimilarity, hla, hlb, hm]
    norm_num
  have hcnt : wordOverlapCount ((pyWords (strLower "erstelle postgres wiki")).dedup)
      ((pyWords (strLower "erstelle docker wiki")).dedup) = 2 := by decide
  have hdl : ((pyWords (strLower "erstelle postgres wiki")).dedup).length = 3 := by decide
  simp only [combinedScore, hsim, hcnt, hdl]
  norm_num

theorem c8_demo_suggest_eval :
    suggest_similar demoMemoryLog "erstelle postgres wiki" = [demoSuggestion] := by
  have hgt := c8_demo_score_gt
  have hne : ¬(demoMemoryLog.isEmpty = true) := by decide
  rw [suggest_similar, if_neg hne]
  rw [show lastN 20 demoMemoryLog = demoMemoryLog from rfl]
  simp only [demoMemoryLog, List.filterMap_cons, List.filterMap_nil]
  rw [if_pos hgt]
  simp [sortDesc, insertDesc, demoSuggestion]

/-- C8: suggest_similar only depends on the most recent 20 entries, returns
at most 3 suggestions, each scoring strictly above 0.3 with the combined
score 0.6 times sequence similarity plus 0.4 times word overlap of its
originating entry, sorted descending by score; and for a memory log holding
the docker prompt, the postgres query returns that entry. -/
theorem c8_suggest_similar_spec (prompt : String) (mem : List MemoryEntry) :
    suggest_similar mem prompt = suggest_similar (lastN 20 mem) prompt
    ∧ (suggest_similar mem prompt).length ≤ 3
    ∧ (∀ sug, sug ∈ suggest_similar mem prompt →
        sug.score > 3 / 10 ∧
        ∃ entry, entry ∈ lastN 20 mem ∧ sug.original_prompt = entry.prompt ∧
          sug.action = entry.action ∧
          sug.score = combinedScore (strLower prompt) (strLower entry.prompt))
    ∧ (suggest_similar mem prompt).Pairwise (fun x y => y.score ≤ x.score)
    ∧ (suggest_similar demoMemoryLog "erstelle postgres wiki").map
        (fun sug => sug.original_prompt) = ["erstelle docker wiki"] := by
  refine ⟨?_, ?_, ?_, ?_, by rw [c8_demo_suggest_eval]; rfl⟩
  · cases mem with
    | nil => rfl
    | cons a as =>
      cases hl : lastN 20 (a :: as) with
      | nil =>
        have : (a :: as).length ≤ (a :: as).length - 20 := List.drop_eq_nil_iff.mp hl
        simp at this
        omega
      | cons b bs =>
        have h2 := lastN_lastN 20 (a :: as)
        rw [hl] at h2
        simp only [suggest_similar, List.isEmpty_cons, Bool.false_eq_true, if_false]
        rw [hl, h2]
  · cases mem with
    | nil => simp [suggest_similar]
    | cons a as =>
      simp only [suggest_similar, List.isEmpty_cons, Bool.false_eq_true, if_false]
      exact List.length_take_le 3 _
  · intro sug hs
    cases mem with
    | nil => simp [suggest_similar] at hs
    | cons a as =>
      simp only [suggest_similar, List.isEmpty_cons, Bool.false_eq_true, if_false] at hs
      have hs2 := List.mem_of_mem_take hs
      rw [mem_sortDesc] at hs2
      rw [List.mem_filterMap] at hs2
      obtain ⟨entry, hmem, hf⟩ := hs2
      by_cases hsc : combinedScore (strLower prompt) (strLower entry.prompt) > 3 / 10
      · rw [if_pos hsc] at hf
        cases hf
        exact ⟨hsc, entry, hmem, rfl, rfl, rfl⟩
      · rw [if_neg hsc] at hf
        cases hf
  · cases mem with
    | nil => simp [suggest_similar]
    | cons a as =>
      simp only [suggest_similar, List.isEmpty_cons, Bool.false_eq_true, if_false]
      exact (pairwise_sortDesc _).sublist (List.take_sublist 3 _)

/-- Witness for C8: the single docker suggestion returned for the postgres
query scores above the threshold and carries the stored entry data. -/
theorem c8_suggest_similar_witness : demoSuggestion.score > 3 / 10 :=
  ((c8_suggest_similar_spec "erstelle postgres wiki" demoMemoryLog).2.2.1 demoSuggestion
    (by rw [c8_demo_suggest_eval]; exact List.mem_singleton.mpr rfl)).1

/-- C9 (code bug): the claim says load and save are non-fatal for every
input. The load catch list misses the shape errors: a memory file holding a
valid JSON array raises AttributeError out of load instead of resetting to
the empty state (only parse, decode and IO errors reset). The save handler
names json.JSONEncodeError, an attribute the json module does not have, so
any write failure raises AttributeError instead of being swallowed. -/
theorem c9_memory_load_save_not_nonfatal :
    memory_load true (.ok (.arr [])) = .error .attributeError
    ∧ memory_load true (.error .jsonDecodeError) = .ok memEmpty
    ∧ memory_load true (.error .ioError) = .ok memEmpty
    ∧ memory_load false (.error .ioError) = .ok memEmpty
    ∧ memory_save (.error .permissionError) = .error .attributeError
    ∧ memory_save (.ok ()) = .ok () :=
  ⟨rfl, rfl, rfl, rfl, rfl, rfl⟩

/-- C10: with no persisted session, add_history and record_change return
silently leaving the store unchanged, while attach_file and
set_active_provider raise the no-active-session error. -/
theorem c10_no_session_silent_vs_raising
    (entry path provider_id : String) (fileContent : String → Option String)
    (reg : ProviderRegistry) :
    add_history none entry = .ok none
    ∧ record_change none entry = .ok none
    ∧ attach_file none path fileContent = .error .noActiveSession
    ∧ set_active_provider none reg provider_id = .error .noActiveSession :=
  ⟨rfl, rfl, rfl, rfl⟩

end Linkowiki
